import Mathlib

/-!
Verification of the edgar-parser repository's metric-extraction core against
its specification.

The Python source (src/edgar_parser/) is shallowly embedded below:

* Raw XBRL facts are modelled as association lists from tag name to unit-keyed
  observation lists (Python nested dicts in insertion order).
* Numeric values are rationals (JSON numbers); a missing/null value is
  an Option.  Python observation dicts may lack the string keys
  end/filed/form; since the code treats a missing key and the empty-string
  default identically (falsy, and the default in the sort key is the empty
  string), missing string fields are modelled as the empty string.
* The calculators' result dicts become structures; status-tagged dicts
  become inductive types; human-readable warning/note strings that carry
  interpolated numbers become inductive constructors carrying those numbers
  (the surrounding literal text is fixed per constructor in the source).
* The wall clock (datetime.now().isoformat()) becomes an explicit String
  parameter threaded to the places that record timestamps.
-/

namespace EdgarParser

/-- One observation of one tag, as found in the raw EDGAR fact structure:
numeric value (possibly null), period-end date, filing date, form type. -/
structure Obs where
  val : Option ℚ
  endDate : String
  filed : String
  form : String
  deriving Repr, DecidableEq

/-- Per-tag data: the units dictionary, mapping a unit name (for example USD)
to its observation list.  Models the Python tag_data dict, where a missing
units key is the empty association list. -/
structure TagData where
  units : List (String × List Obs)
  deriving Repr, DecidableEq

/-- Lookup of the USD entry of the units dict, as in units['USD'] guarded by
the membership test in the source. -/
def TagData.usd (t : TagData) : Option (List Obs) :=
  (t.units.find? (fun p => p.1 = "USD")).map (fun p => p.2)

/-- The GAAP fact set: a dictionary from tag name to its tag data. -/
abbrev GaapData : Type := List (String × TagData)

/-- Python dict lookup gaap_data[tag] guarded by the membership test. -/
def lookupTag (gaap : GaapData) (tag : String) : Option TagData :=
  (gaap.find? (fun p => p.1 = tag)).map (fun p => p.2)

/-- Comparison of observations by the sort key (end, filed), strictly:
a is ordered strictly before b ascending. -/
def obsKeyLt (a b : Obs) : Bool :=
  a.endDate < b.endDate || (a.endDate = b.endDate && a.filed < b.filed)

/-- First element of the stable descending sort of a list by the key
(end, filed): the first element carrying the maximal key.  Models
values.sort(key=(end, filed), reverse=True) followed by taking element 0;
Python's sort is stable, so ties keep the earliest original element. -/
def pickMostRecent : List Obs → Option Obs
  | [] => none
  | x :: xs => some (xs.foldl (fun best o => if obsKeyLt best o then o else best) x)

/-- The result of one tag resolution: the dict with keys val, end, filed, tag
returned by _get_tag_value. -/
structure Resolved where
  val : Option ℚ
  endDate : String
  filed : String
  tag : String
  deriving Repr, DecidableEq

/-- Shared tag resolver _get_tag_value (identical in ebit_calculator.py,
debt_calculator.py, cash_calculator.py and balance_sheet_calculator.py):
iterate the candidate tags in priority order; for a tag present in the fact
set with a USD unit, filter its observations to the requested form type; if
any remain, return the most-recent one (by end date then filed date,
descending) together with the tag name; otherwise continue with the next
candidate; None when no candidate qualifies. -/
def getTagValue (gaap : GaapData) (tagList : List String) (formType : String) :
    Option Resolved :=
  match tagList with
  | [] => none
  | tag :: rest =>
    match lookupTag gaap tag with
    | none => getTagValue gaap rest formType
    | some td =>
      match td.usd with
      | none => getTagValue gaap rest formType
      | some values =>
        match pickMostRecent (values.filter (fun v => v.form = formType)) with
        | none => getTagValue gaap rest formType
        | some m => some ⟨m.val, m.endDate, m.filed, tag⟩

/-- Python idiom (x['val'] if x['val'] else 0): the value when it is a
non-zero number, 0 when it is null or zero.  Numerically this is just the
value with null read as 0. -/
def orZero (o : Option ℚ) : ℚ :=
  match o with
  | none => 0
  | some v => if v = 0 then 0 else v

/-! ## EBIT calculator (ebit_calculator.py) -/

def TIER_1_OPERATING_INCOME_DIRECT : List String := ["OperatingIncomeLoss"]

def TIER_1_REVENUES : List String :=
  ["Revenues",
   "RevenueFromContractWithCustomerExcludingAssessedTax",
   "RevenueFromContractWithCustomerIncludingAssessedTax"]

def TIER_1_COSTS_AND_EXPENSES : List String := ["CostsAndExpenses"]

def TIER_1_PRETAX_INCOME_VALIDATION : List String :=
  ["IncomeLossFromContinuingOperationsBeforeIncomeTaxesExtraordinaryItemsNoncontrollingInterest",
   "IncomeLossFromContinuingOperationsBeforeIncomeTaxesMinorityInterestAndIncomeLossFromEquityMethodInvestments"]

def TIER_2_REVENUES : List String := TIER_1_REVENUES

def TIER_2_COGS : List String := ["CostOfGoodsAndServicesSold"]

def TIER_2_OPERATING_EXPENSES : List String := ["OperatingCostsAndExpenses"]

def TIER_3_NET_INCOME : List String :=
  ["NetIncomeLoss", "ProfitLoss", "NetIncomeLossAvailableToCommonStockholdersBasic"]

def TIER_3_INCOME_TAX : List String := ["IncomeTaxExpenseBenefit"]

def TIER_3_INTEREST_EXPENSE : List String := ["InterestExpenseDebt", "InterestExpense"]

def TIER_4_PRETAX_INCOME : List String := TIER_1_PRETAX_INCOME_VALIDATION

def TIER_4_INTEREST_EXPENSE : List String := TIER_3_INTEREST_EXPENSE

/-- The validation note attached by tier 1's subtractive branch: either the
pass message or the warning message, each carrying the absolute difference
against pre-tax income that the source interpolates into the string. -/
inductive ValidationNote where
  | passed (diff : ℚ)
  | warning (diff : ℚ)
  deriving Repr, DecidableEq

/-- Result of one tier attempt: the tuple
(ebit_value, method, sources, validation_note).  Sources is the dict from
component name to the resolved tag record. -/
structure TierResult where
  value : ℚ
  method : String
  sources : List (String × Resolved)
  validation : Option ValidationNote
  deriving Repr, DecidableEq

/-- Tier 1, second branch: Revenues - CostsAndExpenses with validation
against pre-tax income at the fixed 1,000,000 tolerance. -/
def tier1Subtractive (gaap : GaapData) (formType : String) : Option TierResult :=
  match getTagValue gaap TIER_1_REVENUES formType,
        getTagValue gaap TIER_1_COSTS_AND_EXPENSES formType with
  | some revenues, some costs =>
    match revenues.val, costs.val with
    | some rv, some cv =>
      let ebit := rv - cv
      let pretax := getTagValue gaap TIER_1_PRETAX_INCOME_VALIDATION formType
      let validationNote : Option ValidationNote :=
        match pretax with
        | some p =>
          match p.val with
          | some pv =>
            let difference := |ebit - pv|
            if difference ≤ 1000000 then some (.passed difference)
            else some (.warning difference)
          | none => none
        | none => none
      let sources :=
        [("revenues", revenues), ("costs_and_expenses", costs)] ++
        (match pretax with
         | some p => [("pretax_income_validation", p)]
         | none => [])
      some ⟨ebit, "Revenues - CostsAndExpenses", sources, validationNote⟩
    | _, _ => none
  | _, _ => none

/-- Tier 1 (_tier_1_direct_operating_income): direct OperatingIncomeLoss when
it resolves with a non-null value, else the subtractive branch. -/
def tier1DirectOperatingIncome (gaap : GaapData) (formType : String) :
    Option TierResult :=
  match getTagValue gaap TIER_1_OPERATING_INCOME_DIRECT formType with
  | some oi =>
    match oi.val with
    | some v =>
      some ⟨v, "Direct OperatingIncomeLoss", [("operating_income", oi)], none⟩
    | none => tier1Subtractive gaap formType
  | none => tier1Subtractive gaap formType

/-- Tier 2 (_tier_2_build_from_components):
Revenues - CostOfGoodsAndServicesSold - OperatingCostsAndExpenses, requiring
all three to resolve with non-null values. -/
def tier2BuildFromComponents (gaap : GaapData) (formType : String) :
    Option TierResult :=
  match getTagValue gaap TIER_2_REVENUES formType,
        getTagValue gaap TIER_2_COGS formType,
        getTagValue gaap TIER_2_OPERATING_EXPENSES formType with
  | some revenues, some cogs, some opex =>
    match revenues.val, cogs.val, opex.val with
    | some rv, some gv, some ov =>
      some ⟨rv - gv - ov, "Revenues - COGS - OpEx",
            [("revenues", revenues),
             ("cost_of_goods_and_services_sold", cogs),
             ("operating_costs_and_expenses", opex)], none⟩
    | _, _, _ => none
  | _, _, _ => none

/-- Tier 3 (_tier_3_work_backwards_from_net_income):
net income + income tax + interest expense, requiring all three to resolve
with non-null values. -/
def tier3WorkBackwards (gaap : GaapData) (formType : String) :
    Option TierResult :=
  match getTagValue gaap TIER_3_NET_INCOME formType,
        getTagValue gaap TIER_3_INCOME_TAX formType,
        getTagValue gaap TIER_3_INTEREST_EXPENSE formType with
  | some netIncome, some tax, some interest =>
    match netIncome.val, tax.val, interest.val with
    | some nv, some tv, some iv =>
      some ⟨nv + tv + iv, "NetIncome + Tax + Interest",
            [("net_income", netIncome),
             ("income_tax_expense_benefit", tax),
             ("interest_expense", interest)], none⟩
    | _, _, _ => none
  | _, _, _ => none

/-- Tier 4 (_tier_4_pretax_plus_interest): pre-tax income + interest expense,
requiring both to resolve with non-null values. -/
def tier4PretaxPlusInterest (gaap : GaapData) (formType : String) :
    Option TierResult :=
  match getTagValue gaap TIER_4_PRETAX_INCOME formType,
        getTagValue gaap TIER_4_INTEREST_EXPENSE formType with
  | some pretax, some interest =>
    match pretax.val, interest.val with
    | some pv, some iv =>
      some ⟨pv + iv, "PreTaxIncome + Interest",
            [("pretax_income", pretax), ("interest_expense", interest)], none⟩
    | _, _ => none
  | _, _ => none

/-- The dict returned by calculate_ebit: value, method, tier number, sources,
and the tier-1 validation note when any. -/
structure EbitResult where
  value : ℚ
  method : String
  tier : ℕ
  sources : List (String × Resolved)
  validation : Option ValidationNote
  deriving Repr, DecidableEq

/-- Builds the calculate_ebit result dict from a tier's tuple. -/
def EbitResult.ofTier (t : TierResult) (tierNum : ℕ) : EbitResult :=
  ⟨t.value, t.method, tierNum, t.sources, t.validation⟩

/-- calculate_ebit: try tiers 1 to 4 in order, return the first tier's result
tagged with its tier number; None when every tier fails. -/
def calculateEbit (gaap : GaapData) (formType : String) : Option EbitResult :=
  match tier1DirectOperatingIncome gaap formType with
  | some t => some (EbitResult.ofTier t 1)
  | none =>
    match tier2BuildFromComponents gaap formType with
    | some t => some (EbitResult.ofTier t 2)
    | none =>
      match tier3WorkBackwards gaap formType with
      | some t => some (EbitResult.ofTier t 3)
      | none =>
        match tier4PretaxPlusInterest gaap formType with
        | some t => some (EbitResult.ofTier t 4)
        | none => none

/-- One entry of the explanation string built by validate_ebit, carrying the
numbers the source interpolates into the corresponding message. -/
inductive EbitCheck where
  | ebitNonPositive (ebit : ℚ)
  | ebitPositive (ebit : ℚ)
  | ebitBelowNetIncome (ebit netIncome : ℚ)
  | ebitAboveNetIncome
  | marginOutsideReasonable (margin : ℚ)
  | marginTypical (margin : ℚ)
  | marginAtypical (margin : ℚ)
  deriving Repr, DecidableEq

/-- validate_ebit: sanity checks on a computed EBIT.  Check 1 (positivity)
only appends a message.  Check 2: when net income is supplied and
EBIT < net income, return failure at once.  Check 3: when revenues are
supplied and positive, a margin below 0 or above 100 percent returns
failure; a margin outside the typical 5 to 30 percent band only appends a
warning message.  Otherwise the validation passes. -/
def validateEbit (ebit : ℚ) (netIncome : Option ℚ) (revenues : Option ℚ) :
    Bool × List EbitCheck :=
  let checks1 : List EbitCheck :=
    if ebit ≤ 0 then [.ebitNonPositive ebit] else [.ebitPositive ebit]
  match netIncome with
  | some ni =>
    if ebit < ni then
      (false, checks1 ++ [.ebitBelowNetIncome ebit ni])
    else
      let checks2 := checks1 ++ [.ebitAboveNetIncome]
      match revenues with
      | some rv =>
        if 0 < rv then
          let margin := ebit / rv * 100
          if margin < 0 ∨ 100 < margin then
            (false, checks2 ++ [.marginOutsideReasonable margin])
          else if 5 ≤ margin ∧ margin ≤ 30 then
            (true, checks2 ++ [.marginTypical margin])
          else
            (true, checks2 ++ [.marginAtypical margin])
        else (true, checks2)
      | none => (true, checks2)
  | none =>
    match revenues with
    | some rv =>
      if 0 < rv then
        let margin := ebit / rv * 100
        if margin < 0 ∨ 100 < margin then
          (false, checks1 ++ [.marginOutsideReasonable margin])
        else if 5 ≤ margin ∧ margin ≤ 30 then
          (true, checks1 ++ [.marginTypical margin])
        else
          (true, checks1 ++ [.marginAtypical margin])
      else (true, checks1)
    | none => (true, checks1)

/-! ## Debt calculator (debt_calculator.py) -/

def LT_DEBT_NONCURRENT_TAGS : List String :=
  ["LongTermDebtNoncurrent",
   "LongTermDebtAndCapitalLeaseObligations",
   "LongTermDebt"]

def LT_DEBT_INCLUDING_CURRENT_TAGS : List String :=
  ["LongTermDebtAndCapitalLeaseObligationsIncludingCurrentMaturities",
   "LongTermDebtIncludingCurrentMaturities"]

def LT_DEBT_CURRENT_TAGS : List String :=
  ["LongTermDebtCurrent",
   "LongTermDebtAndCapitalLeaseObligationsCurrent",
   "LongTermDebtMaturitiesRepaymentsOfPrincipalInNextTwelveMonths"]

def ST_BORROWINGS_TAGS : List String := ["ShortTermBorrowings"]

/-- Outcome of a Python call that is not guaranteed to return: either the
returned value, or an uncaught TypeError.  The one reachable raise in the
embedded code is str.format applied to a null value with a numeric format
spec (the duplicates warning of calculate_total_debt); the exception
propagates uncaught through the period extraction to the caller of
parse_company_data. -/
inductive PyResult (α : Type) where
  | ok (val : α)
  | typeError
  deriving Repr, DecidableEq

/-- A warning string appended by calculate_total_debt, with the data the
source interpolates into the message.  The same-value duplicates warning
carries a plain number: interpolating a null value there raises TypeError
instead (see calculateTotalDebtStandard). -/
inductive DebtWarning where
  | usingIncludingCurrent (tag : String)
  | noNoncurrentLtDebt
  | duplicateTagsSameValue (count : ℕ) (value : ℚ)
  | duplicateTagsDifferentValues (count : ℕ) (values : List (Option ℚ))
  | noCurrentPortion
  deriving Repr, DecidableEq

/-- The short-term borrowings dict built by _calculate_st_borrowings:
value, method, and the source tag record(s). -/
structure STBorrowings where
  value : ℚ
  method : String
  sources : List (String × Resolved)
  deriving Repr, DecidableEq

/-- A value of the components dict of calculate_total_debt: either a resolved
tag record (long-term components) or the short-term borrowings dict. -/
inductive DebtComponent where
  | resolved (r : Resolved)
  | st (s : STBorrowings)
  deriving Repr, DecidableEq

/-- The dict returned by calculate_total_debt. -/
structure DebtResult where
  value : ℚ
  method : String
  components : List (String × DebtComponent)
  warnings : Option (List DebtWarning)
  deriving Repr, DecidableEq

/-- _check_for_duplicate_tags: resolve every candidate tag individually and
collect all that resolve. -/
def checkForDuplicateTags (gaap : GaapData) (tagList : List String)
    (formType : String) : List Resolved :=
  tagList.filterMap (fun tag => getTagValue gaap [tag] formType)

/-- _calculate_st_borrowings: direct ShortTermBorrowings first, else the sum
of bank loans and commercial paper when at least one is present, else None.
The direct branch stores its record under the key source. -/
def calculateStBorrowings (gaap : GaapData) (formType : String) :
    Option STBorrowings :=
  match getTagValue gaap ST_BORROWINGS_TAGS formType with
  | some st => some ⟨orZero st.val, "Direct ShortTermBorrowings", [("source", st)]⟩
  | none =>
    let bankLoans := getTagValue gaap ["ShortTermBankLoansAndNotesPayable"] formType
    let commercialPaper := getTagValue gaap ["CommercialPaper"] formType
    match bankLoans, commercialPaper with
    | none, none => none
    | _, _ =>
      let value :=
        (match bankLoans with | some b => orZero b.val | none => 0) +
        (match commercialPaper with | some c => orZero c.val | none => 0)
      let sources :=
        (match bankLoans with | some b => [("bank_loans", b)] | none => []) ++
        (match commercialPaper with
         | some c => [("commercial_paper", c)]
         | none => [])
      some ⟨value, "Sum of components (bank loans + commercial paper)", sources⟩

/-- _determine_method: the method string chosen from which component keys are
present. -/
def determineMethod (components : List (String × DebtComponent)) : String :=
  let has := fun (k : String) => components.any (fun p => p.1 = k)
  if has "lt_debt_including_current" then
    "2-component (LT including current + ST borrowings)"
  else if has "lt_debt_noncurrent" && has "lt_debt_current" && has "st_borrowings" then
    "3-component (LT non-current + LT current + ST borrowings)"
  else if has "lt_debt_noncurrent" && has "lt_debt_current" then
    "2-component (LT non-current + LT current, no ST borrowings)"
  else if has "lt_debt_noncurrent" && has "st_borrowings" then
    "2-component (LT non-current + ST borrowings, no LT current)"
  else
    "Partial (" ++ String.intercalate ", " (components.map (fun p => p.1)) ++ ")"

/-- calculate_total_debt, step 2: the standard 3-component path taken when no
including-current-maturities tag resolves.  Resolves the non-current
long-term component, then the current portion with duplicate detection over
all its candidate tags, then short-term borrowings; ok None when no
component at all was found.  When two or more current-portion candidates
resolve with the same value and that shared value is null, building the
duplicates warning interpolates it with a numeric format spec, which raises
TypeError in the source (no result is returned): the typeError outcome. -/
def calculateTotalDebtStandard (gaap : GaapData) (formType : String) :
    PyResult (Option DebtResult) :=
  let ltDebtNoncurrent := getTagValue gaap LT_DEBT_NONCURRENT_TAGS formType
  let comps1 : List (String × DebtComponent) :=
    match ltDebtNoncurrent with
    | some r => [("lt_debt_noncurrent", .resolved r)]
    | none => []
  let total1 : ℚ :=
    match ltDebtNoncurrent with
    | some r => orZero r.val
    | none => 0
  let warn1 : List DebtWarning :=
    match ltDebtNoncurrent with
    | some _ => []
    | none => [.noNoncurrentLtDebt]
  let ltDebtCurrentMatches := checkForDuplicateTags gaap LT_DEBT_CURRENT_TAGS formType
  let step2 : PyResult (List (String × DebtComponent) × ℚ × List DebtWarning) :=
    match ltDebtCurrentMatches with
    | m1 :: m2 :: rest =>
      if (m2 :: rest).all (fun m => m.val = m1.val) then
        match m1.val with
        | none => .typeError
        | some v =>
          .ok (comps1 ++ [("lt_debt_current", .resolved m1)],
               total1 + orZero m1.val,
               warn1 ++ [.duplicateTagsSameValue (rest.length + 2) v])
      else
        .ok (comps1 ++ [("lt_debt_current", .resolved m1)],
             total1 + orZero m1.val,
             warn1 ++ [.duplicateTagsDifferentValues (rest.length + 2)
                         ((m1 :: m2 :: rest).map (fun m => m.val))])
    | [m1] =>
      .ok (comps1 ++ [("lt_debt_current", .resolved m1)], total1 + orZero m1.val,
           warn1)
    | [] => .ok (comps1, total1, warn1 ++ [.noCurrentPortion])
  match step2 with
  | .typeError => .typeError
  | .ok (comps2, total2, warn2) =>
    let stBorrowings := calculateStBorrowings gaap formType
    let comps3 :=
      match stBorrowings with
      | some s => comps2 ++ [("st_borrowings", .st s)]
      | none => comps2
    let total3 :=
      match stBorrowings with
      | some s => total2 + s.value
      | none => total2
    if comps3 = [] then .ok none
    else
      .ok (some ⟨total3, determineMethod comps3, comps3,
            if warn2 = [] then none else some warn2⟩)

/-- calculate_total_debt: when an including-current-maturities tag resolves,
use it alone for the long-term component (2-component result, the separate
current-portion lookup is skipped); otherwise the standard 3-component
path, whose duplicates warning may raise. -/
def calculateTotalDebt (gaap : GaapData) (formType : String) :
    PyResult (Option DebtResult) :=
  match getTagValue gaap LT_DEBT_INCLUDING_CURRENT_TAGS formType with
  | some inc =>
    let warnings := [DebtWarning.usingIncludingCurrent inc.tag]
    match calculateStBorrowings gaap formType with
    | some st =>
      .ok (some ⟨orZero inc.val + st.value,
            "2-component (LT including current + ST borrowings)",
            [("lt_debt_including_current", .resolved inc), ("st_borrowings", .st st)],
            some warnings⟩)
    | none =>
      .ok (some ⟨orZero inc.val,
            "2-component (LT including current + ST borrowings)",
            [("lt_debt_including_current", .resolved inc)],
            some warnings⟩)
  | none => calculateTotalDebtStandard gaap formType

/-! ## Balance sheet calculator (balance_sheet_calculator.py) -/

def ASSETS_TAGS : List String := ["Assets"]

def CURRENT_LIABILITIES_TAGS : List String := ["LiabilitiesCurrent"]

/-- The dict returned by calculate_assets and calculate_current_liabilities:
value, method, and the source tag record(s); the direct branch stores its
record under the key source, the fallback branch under named keys. -/
structure BsResult where
  value : ℚ
  method : String
  sources : List (String × Resolved)
  deriving Repr, DecidableEq

/-- calculate_assets: direct Assets tag first (value 0 when its most recent
value is null), else the sum of AssetsCurrent and AssetsNoncurrent when both
resolve, else None. -/
def calculateAssets (gaap : GaapData) (formType : String) : Option BsResult :=
  match getTagValue gaap ASSETS_TAGS formType with
  | some assets =>
    some ⟨orZero assets.val, "Direct Assets tag", [("source", assets)]⟩
  | none =>
    match getTagValue gaap ["AssetsCurrent"] formType,
          getTagValue gaap ["AssetsNoncurrent"] formType with
    | some cur, some noncur =>
      some ⟨orZero cur.val + orZero noncur.val,
            "Sum of AssetsCurrent + AssetsNoncurrent",
            [("current", cur), ("noncurrent", noncur)]⟩
    | _, _ => none

/-- calculate_current_liabilities: direct LiabilitiesCurrent tag first, else
Liabilities minus LiabilitiesNoncurrent when both resolve, else None. -/
def calculateCurrentLiabilities (gaap : GaapData) (formType : String) :
    Option BsResult :=
  match getTagValue gaap CURRENT_LIABILITIES_TAGS formType with
  | some cl =>
    some ⟨orZero cl.val, "Direct LiabilitiesCurrent tag", [("source", cl)]⟩
  | none =>
    match getTagValue gaap ["Liabilities"] formType,
          getTagValue gaap ["LiabilitiesNoncurrent"] formType with
    | some total, some noncur =>
      some ⟨orZero total.val - orZero noncur.val,
            "Calculated: Liabilities - LiabilitiesNoncurrent",
            [("total", total), ("noncurrent", noncur)]⟩
    | _, _ => none

/-! ## Cash calculator (cash_calculator.py) -/

def UNRESTRICTED_CASH_TAGS : List String :=
  ["CashAndCashEquivalentsAtCarryingValue"]

def TOTAL_CASH_TAGS : List String :=
  ["CashCashEquivalentsRestrictedCashAndRestrictedCashEquivalents",
   "CashAndCashEquivalentsAtCarryingValue"]

def RESTRICTED_CASH_TAGS : List String :=
  ["RestrictedCashAndCashEquivalentsAtCarryingValue"]

/-- The dict returned by _calculate_restricted_cash. -/
structure RestrictedCashResult where
  value : ℚ
  method : String
  sources : List (String × Resolved)
  deriving Repr, DecidableEq

/-- _calculate_restricted_cash: direct restricted-cash tag first, else the
sum of current and non-current restricted components when at least one is
present, else None. -/
def calculateRestrictedCash (gaap : GaapData) (formType : String) :
    Option RestrictedCashResult :=
  match getTagValue gaap RESTRICTED_CASH_TAGS formType with
  | some rc =>
    some ⟨orZero rc.val, "Direct RestrictedCashAndCashEquivalentsAtCarryingValue",
          [("source", rc)]⟩
  | none =>
    let restrictedCurrent := getTagValue gaap ["RestrictedCashCurrent"] formType
    let restrictedNoncurrent := getTagValue gaap ["RestrictedCashNoncurrent"] formType
    match restrictedCurrent, restrictedNoncurrent with
    | none, none => none
    | _, _ =>
      let value :=
        (match restrictedCurrent with | some c => orZero c.val | none => 0) +
        (match restrictedNoncurrent with | some n => orZero n.val | none => 0)
      let sources :=
        (match restrictedCurrent with | some c => [("current", c)] | none => []) ++
        (match restrictedNoncurrent with | some n => [("noncurrent", n)] | none => [])
      some ⟨value, "Sum of RestrictedCashCurrent + RestrictedCashNoncurrent", sources⟩

/-- The dict returned by calculate_cash.  The three scenario branches store
different component keys; each optional field stands for its key being
present in the components dict. -/
structure CashResult where
  unrestrictedCash : ℚ
  totalCash : ℚ
  restrictedCash : ℚ
  method : String
  compUnrestricted : Option Resolved
  compTotal : Option Resolved
  compRestricted : Option RestrictedCashResult
  deriving Repr, DecidableEq

/-- calculate_cash: scenario 1 when a direct unrestricted-cash tag resolves
(total computed by adding restricted when found); scenario 2 when a total
cash tag and restricted cash both resolve (unrestricted by subtraction);
scenario 3 when only total cash resolves (assumed fully unrestricted);
otherwise None. -/
def calculateCash (gaap : GaapData) (formType : String) : Option CashResult :=
  let unrestrictedCashDirect := getTagValue gaap UNRESTRICTED_CASH_TAGS formType
  let totalCash := getTagValue gaap TOTAL_CASH_TAGS formType
  let restrictedCashResult := calculateRestrictedCash gaap formType
  match unrestrictedCashDirect with
  | some u =>
    let unrestrictedValue := orZero u.val
    match restrictedCashResult with
    | some rc =>
      some ⟨unrestrictedValue, unrestrictedValue + rc.value, rc.value,
            "Direct unrestricted + calculated total", some u, none, some rc⟩
    | none =>
      some ⟨unrestrictedValue, unrestrictedValue, 0,
            "Direct unrestricted (no restricted cash)", some u, none, none⟩
  | none =>
    match totalCash, restrictedCashResult with
    | some t, some rc =>
      some ⟨orZero t.val - rc.value, orZero t.val, rc.value,
            "Calculated: Total cash - Restricted cash", none, some t, some rc⟩
    | some t, none =>
      some ⟨orZero t.val, orZero t.val, 0,
            "Total cash (assuming no restricted cash)", none, some t, none⟩
    | none, _ => none

/-! ## Parser (parser_v2.py) -/

/-- The dict returned by _calculate_roce: either the missing-components
status with the list of absent component names, or the
invalid-capital-employed status (value None, the non-positive capital
employed recorded), or success with the ROCE value, its components and an
interpretation band. -/
inductive RoceResult where
  | missingComponents (missing : List String)
  | invalidCapitalEmployed (capitalEmployed : ℚ)
  | success (value ebit totalAssets currentLiabilities capitalEmployed : ℚ)
      (interpretation : String)
  deriving Repr, DecidableEq

/-- _calculate_roce: requires the EBIT, assets and current-liabilities
results all present, else missing_components naming the absent ones (in the
order ebit, assets, current_liabilities); computes capital employed and
returns invalid_capital_employed when it is non-positive; else
ROCE = EBIT / capital employed * 100 with the interpretation band. -/
def calculateRoce (ebitResult : Option EbitResult) (assetsResult : Option BsResult)
    (currentLiabilitiesResult : Option BsResult) : RoceResult :=
  match ebitResult, assetsResult, currentLiabilitiesResult with
  | some e, some a, some c =>
    let capitalEmployed := a.value - c.value
    if capitalEmployed ≤ 0 then .invalidCapitalEmployed capitalEmployed
    else
      let roce := e.value / capitalEmployed * 100
      let interpretation :=
        if roce > 25 then
          "Excellent - High quality business with strong capital efficiency"
        else if roce > 15 then "Good - Above average capital efficiency"
        else if roce > 10 then "Average - Acceptable returns on capital"
        else
          "Below Average - May indicate capital inefficiency or competitive pressures"
      .success roce e.value a.value c.value capitalEmployed interpretation
  | _, _, _ =>
    .missingComponents
      ((if ebitResult = none then ["ebit"] else []) ++
       (if assetsResult = none then ["assets"] else []) ++
       (if currentLiabilitiesResult = none then ["current_liabilities"] else []))

/-- The dict returned by _calculate_earnings_yield_components. -/
inductive EyResult where
  | missingComponents (missing : List String)
  | success (ebit totalDebt unrestrictedCash netDebt : ℚ)
  deriving Repr, DecidableEq

/-- _calculate_earnings_yield_components: requires EBIT, total debt and cash
all present, else missing_components; computes net debt, deferring the final
ratio to an externally supplied market capitalization. -/
def calculateEarningsYieldComponents (ebitResult : Option EbitResult)
    (debtResult : Option DebtResult) (cashResult : Option CashResult) : EyResult :=
  match ebitResult, debtResult, cashResult with
  | some e, some d, some c =>
    .success e.value d.value c.unrestrictedCash (d.value - c.unrestrictedCash)
  | _, _, _ =>
    .missingComponents
      ((if ebitResult = none then ["ebit"] else []) ++
       (if debtResult = none then ["total_debt"] else []) ++
       (if cashResult = none then ["cash"] else []))

/-! ### Period identification and alignment -/

/-- The value of the periods dict built by _identify_fiscal_periods: the
representative filing date and form of one fiscal period. -/
structure PeriodInfo where
  filed : String
  form : String
  deriving Repr, DecidableEq

/-- The raw EDGAR input: entity name, CIK and the facts mapping from taxonomy
name (us-gaap) to the tag dictionary. -/
structure EdgarData where
  entityName : Option String
  cik : Option String
  facts : List (String × GaapData)
  deriving Repr, DecidableEq

/-- One step of the periods-dict construction of _identify_fiscal_periods:
skip observations with a falsy end or filed date; record an unseen period
end at the end of the dict; replace a seen one only when the new filing date
is strictly later (keeping the key position, as a Python dict update
does). -/
def updatePeriods (periods : List (String × PeriodInfo)) (o : Obs) :
    List (String × PeriodInfo) :=
  if o.endDate = "" ∨ o.filed = "" then periods
  else
    match (periods.find? (fun p => p.1 = o.endDate)).map (fun p => p.2) with
    | none => periods ++ [(o.endDate, ⟨o.filed, o.form⟩)]
    | some cur =>
      if cur.filed < o.filed then
        periods.map (fun p =>
          if p.1 = o.endDate then (p.1, ⟨o.filed, o.form⟩) else p)
      else periods

/-- _identify_fiscal_periods: scan the Assets tag's USD observations of the
requested form type and group them by period end, keeping the most recently
filed observation per period. -/
def identifyFiscalPeriods (facts : EdgarData) (formType : String) :
    List (String × PeriodInfo) :=
  match (facts.facts.find? (fun p => p.1 = "us-gaap")).map (fun p => p.2) with
  | none => []
  | some gaap =>
    match lookupTag gaap "Assets" with
    | none => []
    | some td =>
      match td.usd with
      | none => []
      | some values =>
        (values.filter (fun v => v.form = formType)).foldl updatePeriods []

/-- First element of the stable descending sort of observations by filed
date: models period_values.sort(key=filed, reverse=True) followed by taking
element 0 in _filter_gaap_to_period. -/
def pickMostRecentlyFiled : List Obs → Option Obs
  | [] => none
  | x :: xs => some (xs.foldl (fun best o => if best.filed < o.filed then o else best) x)

/-- _filter_gaap_to_period: restrict the fact set to, per tag, the single
most-recently-filed USD observation whose period end and form match the
period exactly; tags with no such observation are dropped. -/
def filterGaapToPeriod (gaapFacts : GaapData) (periodEnd : String)
    (formType : String) : GaapData :=
  gaapFacts.filterMap (fun p =>
    match p.2.usd with
    | some values =>
      match pickMostRecentlyFiled
          (values.filter (fun v => v.endDate = periodEnd && v.form = formType)) with
      | some m => some (p.1, ⟨[("USD", [m])]⟩)
      | none => none
    | none => none)

/-! ### Quarterly de-cumulation -/

/-- The fields _calculate_quarterly_deltas adds to one quarter's EBIT dict:
nothing when the quarter has no EBIT; for the first quarter of the group,
ytd_value = quarterly_value = the reported value (is_q1, with its note); for
a later quarter, ytd_value = the reported value and either the de-cumulated
quarterly value with the previous quarter's YTD recorded, or, when the
previous quarter's EBIT is missing, quarterly_value None with
calculation_failed set and the failure note. -/
inductive DeltaInfo where
  | skipped
  | q1 (ytdValue quarterlyValue : ℚ)
  | decumulated (ytdValue quarterlyValue previousQuarterYtd : ℚ)
  | failed (ytdValue : ℚ)
  deriving Repr, DecidableEq

/-- The de-cumulation loop of _calculate_quarterly_deltas over one fiscal
year's chronologically sorted quarter list (each element the quarter's EBIT
value, None when the quarter has no EBIT): mirrors
for i, quarter in enumerate(sorted_quarters) with prev = sorted_quarters[i-1]. -/
def decumulateGroup (qs : List (Option ℚ)) : List DeltaInfo :=
  qs.enum.map (fun p =>
    match p.2 with
    | none => .skipped
    | some v =>
      if p.1 = 0 then .q1 v v
      else
        match qs[p.1 - 1]? with
        | some (some w) => .decumulated v (v - w) w
        | _ => .failed v)

/-! ### Period orchestration (extract_all_periods, parse_company_data) -/

/-- One metric's entry in the calculation log: value (absent for the cash
dict, which has no value key), method, and the tier/validation (EBIT only)
and warnings (total debt only) fields, None for the other metrics. -/
structure MetricLogEntry where
  value : Option ℚ
  method : String
  tier : Option ℕ
  validation : Option ValidationNote
  warnings : Option (List DebtWarning)
  deriving Repr, DecidableEq

/-- The calculation log _create_calculation_log builds for one period. -/
structure CalcLog where
  timestamp : String
  company : String
  cik : String
  fiscalYearEnd : String
  filingDate : String
  metricsExtracted : List (String × MetricLogEntry)
  roce : RoceResult
  eyComponents : EyResult
  deriving Repr, DecidableEq

/-- One period's record as assembled by _extract_period_metrics, with the
fields added later by extract_all_periods (is_most_recent), the quarterly
de-cumulation pass (the fields attached to the EBIT dict) and
parse_company_data (calculation_log). -/
structure PeriodMetrics where
  fiscalYear : String
  fiscalYearEnd : String
  filingDate : String
  form : String
  ebit : Option EbitResult
  totalDebt : Option DebtResult
  cash : Option CashResult
  assets : Option BsResult
  currentLiabilities : Option BsResult
  roce : RoceResult
  earningsYieldComponents : EyResult
  isMostRecent : Option Bool
  ebitDelta : DeltaInfo
  calculationLog : Option CalcLog
  deriving Repr, DecidableEq

/-- _extract_period_metrics: filter the fact set to the period's view, run
the five calculators on it, and derive the ROCE and earnings-yield ratios.
The fiscal year is the first four characters of the period end.  The debt
calculator's TypeError, when raised, propagates uncaught. -/
def extractPeriodMetrics (facts : EdgarData) (periodEnd : String)
    (filingInfo : PeriodInfo) (formType : String) :
    PyResult (Option PeriodMetrics) :=
  match (facts.facts.find? (fun p => p.1 = "us-gaap")).map (fun p => p.2) with
  | none => .ok none
  | some gaapFacts =>
    let periodGaapData := filterGaapToPeriod gaapFacts periodEnd formType
    let ebitResult := calculateEbit periodGaapData formType
    match calculateTotalDebt periodGaapData formType with
    | .typeError => .typeError
    | .ok debtResult =>
      let cashResult := calculateCash periodGaapData formType
      let assetsResult := calculateAssets periodGaapData formType
      let currentLiabilitiesResult := calculateCurrentLiabilities periodGaapData formType
      .ok (some
        { fiscalYear := periodEnd.take 4
          fiscalYearEnd := periodEnd
          filingDate := filingInfo.filed
          form := formType
          ebit := ebitResult
          totalDebt := debtResult
          cash := cashResult
          assets := assetsResult
          currentLiabilities := currentLiabilitiesResult
          roce := calculateRoce ebitResult assetsResult currentLiabilitiesResult
          earningsYieldComponents :=
            calculateEarningsYieldComponents ebitResult debtResult cashResult
          isMostRecent := none
          ebitDelta := .skipped
          calculationLog := none })

/-- Stable descending insertion by fiscal year end, modelling
period_data.sort(key=fiscal_year_end, reverse=True). -/
def insertDescByEnd (p : PeriodMetrics) : List PeriodMetrics → List PeriodMetrics
  | [] => [p]
  | q :: rest =>
    if q.fiscalYearEnd < p.fiscalYearEnd then p :: q :: rest
    else q :: insertDescByEnd p rest

/-- The per-period loop of extract_all_periods: extract each period's
metrics in order, keeping the truthy ones; a TypeError raised for any
period aborts the whole loop. -/
def extractPeriodsLoop (facts : EdgarData) (formType : String) :
    List (String × PeriodInfo) → PyResult (List PeriodMetrics)
  | [] => .ok []
  | p :: rest =>
    match extractPeriodMetrics facts p.1 p.2 formType with
    | .typeError => .typeError
    | .ok none => extractPeriodsLoop facts formType rest
    | .ok (some m) =>
      match extractPeriodsLoop facts formType rest with
      | .typeError => .typeError
      | .ok l => .ok (m :: l)

/-- extract_all_periods: identify the fiscal periods, extract each period's
metrics, sort most recent first, and mark the first element as the most
recent period; an uncaught TypeError from a period's calculators
propagates. -/
def extractAllPeriods (facts : EdgarData) (formType : String) :
    PyResult (List PeriodMetrics) :=
  let periods := identifyFiscalPeriods facts formType
  if periods = [] then .ok []
  else
    match extractPeriodsLoop facts formType periods with
    | .typeError => .typeError
    | .ok periodData =>
      let sorted := periodData.foldl (fun acc p => insertDescByEnd p acc) []
      match sorted with
      | [] => .ok []
      | first :: rest =>
        .ok ({ first with isMostRecent := some true } ::
          rest.map (fun p => { p with isMostRecent := some false }))

/-- Stable ascending insertion by fiscal year end, modelling
sorted(quarters, key=fiscal_year_end) inside _calculate_quarterly_deltas. -/
def insertAscByEnd (p : PeriodMetrics) : List PeriodMetrics → List PeriodMetrics
  | [] => [p]
  | q :: rest =>
    if p.fiscalYearEnd < q.fiscalYearEnd then p :: q :: rest
    else q :: insertAscByEnd p rest

/-- Grouping of quarterly periods by fiscal year, modelling the defaultdict
keyed by the first four characters of the period end, in insertion order. -/
def groupByFiscalYear (periods : List PeriodMetrics) :
    List (String × List PeriodMetrics) :=
  periods.foldl (fun acc p =>
    let key := p.fiscalYearEnd.take 4
    if acc.any (fun g => g.1 = key) then
      acc.map (fun g => if g.1 = key then (g.1, g.2 ++ [p]) else g)
    else acc ++ [(key, [p])]) []

/-- The de-cumulation results of _calculate_quarterly_deltas, keyed by the
period end of the quarter each result was attached to: per fiscal-year
group, sort ascending and run the de-cumulation loop.  (Period ends are
unique across one form type's periods, since _identify_fiscal_periods keys
its dict by period end.) -/
def quarterlyDeltaTable (periods : List PeriodMetrics) :
    List (String × DeltaInfo) :=
  (groupByFiscalYear periods).flatMap (fun g =>
    let sortedQuarters := g.2.foldl (fun acc p => insertAscByEnd p acc) []
    (sortedQuarters.zip
      (decumulateGroup (sortedQuarters.map (fun p => p.ebit.map (fun e => e.value))))).map
      (fun pd => (pd.1.fiscalYearEnd, pd.2)))

/-- _calculate_quarterly_deltas as a pure transform: each quarter receives
the delta fields computed for it within its sorted fiscal-year group (the
source mutates the same dicts in place through the sorted view). -/
def calculateQuarterlyDeltas (periods : List PeriodMetrics) :
    List PeriodMetrics :=
  let table := quarterlyDeltaTable periods
  periods.map (fun p =>
    { p with ebitDelta :=
        (((table.find? (fun q => q.1 = p.fiscalYearEnd)).map (fun q => q.2)).getD
          .skipped) })

/-- _create_calculation_log: the metric entries in the metrics dict's
insertion order (ebit, total_debt, cash, assets, current_liabilities, each
only when present), then the two ratio records.  The cash dict has no value
key, so its logged value is None. -/
def createCalculationLog (now : String) (p : PeriodMetrics)
    (companyName cik : String) : CalcLog :=
  let entries : List (String × MetricLogEntry) :=
    (match p.ebit with
     | some e => [("ebit", ⟨some e.value, e.method, some e.tier, e.validation, none⟩)]
     | none => []) ++
    (match p.totalDebt with
     | some d =>
       [("total_debt", ⟨some d.value, d.method, none, none, d.warnings⟩)]
     | none => []) ++
    (match p.cash with
     | some c => [("cash", ⟨none, c.method, none, none, none⟩)]
     | none => []) ++
    (match p.assets with
     | some a => [("assets", ⟨some a.value, a.method, none, none, none⟩)]
     | none => []) ++
    (match p.currentLiabilities with
     | some c =>
       [("current_liabilities", ⟨some c.value, c.method, none, none, none⟩)]
     | none => [])
  { timestamp := now
    company := companyName
    cik := cik
    fiscalYearEnd := p.fiscalYearEnd
    filingDate := p.filingDate
    metricsExtracted := entries
    roce := p.roce
    eyComponents := p.earningsYieldComponents }

/-- The metadata record of parse_company_data's output. -/
structure ParseMetadata where
  companyName : String
  cik : String
  parsedAt : String
  parserVersion : String
  totalAnnualPeriods : ℕ
  totalQuarterlyPeriods : ℕ
  guideVersion : String
  deriving Repr, DecidableEq

/-- The structured record returned by parse_company_data. -/
structure ParseResult where
  metadata : ParseMetadata
  annualPeriods : List PeriodMetrics
  quarterlyPeriods : List PeriodMetrics
  deriving Repr, DecidableEq

/-- parse_company_data: extract the annual (10-K) periods, then (when
requested) the quarterly (10-Q) periods with the de-cumulation pass, attach
a calculation log to every period, and assemble metadata and period lists;
an uncaught TypeError from either extraction propagates to the caller.
The wall clock datetime.now().isoformat() is the explicit now parameter
(the verbose printing is output-only and omitted). -/
def parseCompanyData (now : String) (edgarData : EdgarData)
    (includeQuarterly : Bool) : PyResult ParseResult :=
  let companyName := edgarData.entityName.getD "Unknown"
  let cik := edgarData.cik.getD "Unknown"
  match extractAllPeriods edgarData "10-K" with
  | .typeError => .typeError
  | .ok annualPeriods =>
    match (if includeQuarterly then extractAllPeriods edgarData "10-Q"
           else .ok []) with
    | .typeError => .typeError
    | .ok quarterlyRaw =>
      let quarterlyPeriods :=
        if includeQuarterly then calculateQuarterlyDeltas quarterlyRaw
        else quarterlyRaw
      let annualLogged := annualPeriods.map (fun p =>
        { p with calculationLog := some (createCalculationLog now p companyName cik) })
      let quarterlyLogged := quarterlyPeriods.map (fun p =>
        { p with calculationLog := some (createCalculationLog now p companyName cik) })
      .ok
        { metadata :=
            { companyName := companyName
              cik := cik
              parsedAt := now
              parserVersion := "2.0"
              totalAnnualPeriods := annualLogged.length
              totalQuarterlyPeriods := quarterlyLogged.length
              guideVersion := "Financial Metrics Extraction Guide - December 2024" }
          annualPeriods := annualLogged
          quarterlyPeriods := quarterlyLogged }

/-! ## Test fixtures -/

/-- An observation with the given value in the fixed fiscal period used by
the concrete test inputs below. -/
def mkObs (v : Option ℚ) : Obs := ⟨v, "2024-12-31", "2025-02-01", "10-K"⟩

/-- A tag with a single USD observation. -/
def mkTag (v : Option ℚ) : TagData := ⟨[("USD", [mkObs v])]⟩

/-- Fact set for the end-to-end scenario C: only net income, income tax and
interest expense are tagged. -/
def factsScenarioC : GaapData :=
  [("NetIncomeLoss", mkTag (some 50)),
   ("IncomeTaxExpenseBenefit", mkTag (some 8)),
   ("InterestExpense", mkTag (some 2))]

/-- Fact set for the end-to-end scenario B: revenues and costs-and-expenses
present, no operating-income tag, pre-tax income differing from their
difference by more than the 1,000,000 tolerance. -/
def factsScenarioB : GaapData :=
  [("Revenues", mkTag (some 10000000)),
   ("CostsAndExpenses", mkTag (some 2000000)),
   ("IncomeLossFromContinuingOperationsBeforeIncomeTaxesExtraordinaryItemsNoncontrollingInterest",
    mkTag (some 5000000))]

/-- Fact set with an including-current-maturities long-term-debt tag next to
two current-portion candidate tags carrying the same value. -/
def factsIncludingAndDuplicates : GaapData :=
  [("LongTermDebtIncludingCurrentMaturities", mkTag (some 500)),
   ("LongTermDebtCurrent", mkTag (some 100)),
   ("LongTermDebtAndCapitalLeaseObligationsCurrent", mkTag (some 100))]

/-- Fact set with a non-current long-term-debt tag and two current-portion
candidate tags carrying the same value (no including-current tag). -/
def factsDuplicateCurrent : GaapData :=
  [("LongTermDebtNoncurrent", mkTag (some 300)),
   ("LongTermDebtCurrent", mkTag (some 100)),
   ("LongTermDebtAndCapitalLeaseObligationsCurrent", mkTag (some 100))]

/-- Fact set whose only Assets observation carries a null value. -/
def factsNullAssets : GaapData := [("Assets", mkTag none)]

/-- Fact set with a null-valued non-current long-term-debt observation next
to short-term borrowings of 50. -/
def factsNullDebt : GaapData :=
  [("LongTermDebtNoncurrent", mkTag none),
   ("ShortTermBorrowings", mkTag (some 50))]

/-- Fact set with two current-portion candidate tags whose most recent
observations both carry a null value (the TypeError input of the debt
calculator's duplicates warning). -/
def factsNullDuplicateCurrent : GaapData :=
  [("LongTermDebtCurrent", mkTag none),
   ("LongTermDebtAndCapitalLeaseObligationsCurrent", mkTag none)]

/-- A quarterly period fixture with the given period end and EBIT value. -/
def mkQuarter (endDate : String) (ebitValue : ℚ) : PeriodMetrics :=
  { fiscalYear := endDate.take 4
    fiscalYearEnd := endDate
    filingDate := "2025-02-01"
    form := "10-Q"
    ebit := some ⟨ebitValue, "Direct OperatingIncomeLoss", 1, [], none⟩
    totalDebt := none
    cash := none
    assets := none
    currentLiabilities := none
    roce := .missingComponents ["assets", "current_liabilities"]
    earningsYieldComponents := .missingComponents ["total_debt", "cash"]
    isMostRecent := none
    ebitDelta := .skipped
    calculationLog := none }

/-- A minimal raw EDGAR input with one annual period. -/
def edgarSample : EdgarData :=
  ⟨some "TestCo", some "0000000001",
   [("us-gaap",
     [("Assets", mkTag (some 1000)),
      ("LiabilitiesCurrent", mkTag (some 400)),
      ("OperatingIncomeLoss", mkTag (some 120))])]⟩

/-! ## Helper lemmas -/

theorem pickMostRecent_eq_none {l : List Obs} :
    pickMostRecent l = none ↔ l = [] := by
  cases l <;> simp [pickMostRecent]

theorem decumulateGroup_getElem (qs : List (Option ℚ)) (k : ℕ) :
    (decumulateGroup qs)[k]? =
      (qs[k]?).map (fun q =>
        match q with
        | none => .skipped
        | some v =>
          if k = 0 then .q1 v v
          else
            match qs[k - 1]? with
            | some (some w) => .decumulated v (v - w) w
            | _ => .failed v) := by
  simp only [decumulateGroup, List.getElem?_map, List.getElem?_enum]
  cases qs[k]? <;> rfl

/-! ## Claim C2: quarterly de-cumulation -/

/-- C2: within each fiscal-year group of interim periods, sorted ascending
by period end: the first quarter's isolated quarterly value equals its own
YTD value; a later quarter whose own EBIT and whose immediately preceding
quarter's EBIT are both present gets quarterly value = its YTD minus the
previous quarter's YTD, exactly; and when the preceding quarter's EBIT is
absent the quarterly value is explicitly marked unavailable (calculation
failed) rather than computed. -/
theorem quarterly_decumulation_correct (group : List PeriodMetrics)
    (qs : List (Option ℚ))
    (hqs : qs = ((group.foldl (fun acc p => insertAscByEnd p acc) []).map
      (fun p => p.ebit.map (fun e => e.value)))) :
    (∀ v, qs[0]? = some (some v) →
      (decumulateGroup qs)[0]? = some (.q1 v v)) ∧
    (∀ k v w, qs[k + 1]? = some (some v) → qs[k]? = some (some w) →
      (decumulateGroup qs)[k + 1]? = some (.decumulated v (v - w) w)) ∧
    (∀ k v, qs[k + 1]? = some (some v) → qs[k]? = some none →
      (decumulateGroup qs)[k + 1]? = some (.failed v)) := by
  clear hqs
  refine ⟨fun v h0 => ?_, fun k v w hv hw => ?_, fun k v hv hw => ?_⟩
  · rw [decumulateGroup_getElem, h0]
    simp
  · rw [decumulateGroup_getElem, hv]
    simp [hw]
  · rw [decumulateGroup_getElem, hv]
    simp [hw]

/-- Witness for C2 at the concrete scenario-D quarters (YTD 20, 55, 85):
isolated values 20, 35 and 30. -/
theorem quarterly_decumulation_correct_witness :
    (decumulateGroup [some 20, some 55, some 85])[0]? = some (.q1 20 20) ∧
    (decumulateGroup [some 20, some 55, some 85])[1]? =
      some (.decumulated 55 35 20) ∧
    (decumulateGroup [some 20, some 55, some 85])[2]? =
      some (.decumulated 85 30 55) := by
  have h := quarterly_decumulation_correct
    [mkQuarter "2024-06-30" 55, mkQuarter "2024-03-31" 20, mkQuarter "2024-09-30" 85]
    [some 20, some 55, some 85]
    (by simp +decide [mkQuarter, insertAscByEnd])
  refine ⟨h.1 20 (by decide), ?_, ?_⟩
  · have h1 := h.2.1 0 55 20 (by decide) (by decide)
    have h35 : (55 : ℚ) - 20 = 35 := by norm_num
    rwa [h35] at h1
  · have h2 := h.2.1 1 85 55 (by decide) (by decide)
    have h30 : (85 : ℚ) - 55 = 30 := by norm_num
    rwa [h30] at h2

/-! ## Claim C3: ROCE statuses and bands -/

/-- C3: the ROCE calculation returns missing_components naming exactly the
absent inputs when any of EBIT, assets or current liabilities is absent;
returns invalid_capital_employed carrying no ROCE value whenever capital
employed is non-positive; and otherwise returns EBIT / capital employed
times 100 with the bands Excellent above 25, Good above 15, Average above
10, below-average otherwise. -/
theorem roce_statuses_and_bands (e : Option EbitResult) (a c : Option BsResult) :
    ((e = none ∨ a = none ∨ c = none) →
      calculateRoce e a c =
        .missingComponents
          ((if e = none then ["ebit"] else []) ++
           (if a = none then ["assets"] else []) ++
           (if c = none then ["current_liabilities"] else []))) ∧
    (∀ er ar cr, e = some er → a = some ar → c = some cr →
      (ar.value - cr.value ≤ 0 →
        calculateRoce e a c = .invalidCapitalEmployed (ar.value - cr.value)) ∧
      (0 < ar.value - cr.value →
        ∃ interp,
          calculateRoce e a c =
            .success (er.value / (ar.value - cr.value) * 100) er.value ar.value
              cr.value (ar.value - cr.value) interp ∧
          (25 < er.value / (ar.value - cr.value) * 100 →
            interp = "Excellent - High quality business with strong capital efficiency") ∧
          (15 < er.value / (ar.value - cr.value) * 100 →
            er.value / (ar.value - cr.value) * 100 ≤ 25 →
            interp = "Good - Above average capital efficiency") ∧
          (10 < er.value / (ar.value - cr.value) * 100 →
            er.value / (ar.value - cr.value) * 100 ≤ 15 →
            interp = "Average - Acceptable returns on capital") ∧
          (er.value / (ar.value - cr.value) * 100 ≤ 10 →
            interp =
              "Below Average - May indicate capital inefficiency or competitive pressures"))) := by
  constructor
  · rintro h
    rcases e with _ | er <;> rcases a with _ | ar <;> rcases c with _ | cr <;>
      simp [calculateRoce] at h ⊢
  · rintro er ar cr rfl rfl rfl
    constructor
    · intro hle
      simp [calculateRoce, hle]
    · intro hpos
      refine ⟨if 25 < er.value / (ar.value - cr.value) * 100 then
          "Excellent - High quality business with strong capital efficiency"
        else if 15 < er.value / (ar.value - cr.value) * 100 then
          "Good - Above average capital efficiency"
        else if 10 < er.value / (ar.value - cr.value) * 100 then
          "Average - Acceptable returns on capital"
        else
          "Below Average - May indicate capital inefficiency or competitive pressures",
        ?_, ?_, ?_, ?_, ?_⟩
      · simp only [calculateRoce, not_le.mpr hpos, if_false, gt_iff_lt]
      · intro h25
        rw [if_pos h25]
      · intro h15 h25
        rw [if_neg (not_lt.mpr h25), if_pos h15]
      · intro h10 h15
        rw [if_neg (not_lt.mpr (h15.trans (by norm_num))),
            if_neg (not_lt.mpr h15), if_pos h10]
      · intro h10
        rw [if_neg (not_lt.mpr (h10.trans (by norm_num))),
            if_neg (not_lt.mpr (h10.trans (by norm_num))),
            if_neg (not_lt.mpr h10)]

/-- Witness for C3: scenario A (assets 352,755,000,000, current liabilities
145,308,000,000, EBIT 114,301,000,000) yields ROCE 11,430,100/207,447
(about 55.1 percent), banded Excellent; and with the EBIT result absent, the
missing-components status names exactly ebit. -/
theorem roce_statuses_and_bands_witness :
    calculateRoce (some ⟨114301000000, "Direct OperatingIncomeLoss", 1, [], none⟩)
        (some ⟨352755000000, "Direct Assets tag", []⟩)
        (some ⟨145308000000, "Direct LiabilitiesCurrent tag", []⟩) =
      .success (11430100 / 207447) 114301000000 352755000000 145308000000
        207447000000
        "Excellent - High quality business with strong capital efficiency" ∧
    calculateRoce none (some ⟨352755000000, "Direct Assets tag", []⟩)
        (some ⟨145308000000, "Direct LiabilitiesCurrent tag", []⟩) =
      .missingComponents ["ebit"] := by
  constructor
  · have h := (roce_statuses_and_bands
      (some ⟨114301000000, "Direct OperatingIncomeLoss", 1, [], none⟩)
      (some ⟨352755000000, "Direct Assets tag", []⟩)
      (some ⟨145308000000, "Direct LiabilitiesCurrent tag", []⟩)).2
      ⟨114301000000, "Direct OperatingIncomeLoss", 1, [], none⟩
      ⟨352755000000, "Direct Assets tag", []⟩
      ⟨145308000000, "Direct LiabilitiesCurrent tag", []⟩ rfl rfl rfl
    obtain ⟨interp, heq, hex, -, -, -⟩ := h.2 (by norm_num)
    have hval : (114301000000 : ℚ) / (352755000000 - 145308000000) * 100 =
        11430100 / 207447 := by norm_num
    have hinterp : interp =
        "Excellent - High quality business with strong capital efficiency" := by
      apply hex
      rw [hval]
      norm_num
    rw [heq, hval, hinterp]
    norm_num
  · have h := (roce_statuses_and_bands none
      (some ⟨352755000000, "Direct Assets tag", []⟩)
      (some ⟨145308000000, "Direct LiabilitiesCurrent tag", []⟩)).1
      (Or.inl rfl)
    simpa using h

/-! ## Claim C8 (corrected): EBIT validation -/

/-- Counterexample to C8 as stated: with EBIT = net income = 100 the claim
demands a hard failure (EBIT does not exceed net income), but validate_ebit
passes, because its check is the strict comparison ebit < net_income. -/
theorem validate_ebit_equality_passes :
    (validateEbit 100 (some 100) none).1 = true := by decide

/-- C8 as amended: with a net income supplied, validation fails hard exactly
when EBIT is strictly below net income (equality passes) or when a supplied
positive revenue puts the EBIT margin outside the reasonable 0 to 100
percent band; the positivity check and a margin outside the typical 5 to 30
percent band but within 0 to 100 percent produce only soft warnings, never
failure. -/
theorem validate_ebit_fails_iff (e ni : ℚ) (r : Option ℚ) :
    (validateEbit e (some ni) r).1 = false ↔
      e < ni ∨ ∃ rv, r = some rv ∧ 0 < rv ∧
        (e / rv * 100 < 0 ∨ 100 < e / rv * 100) := by
  rcases r with _ | rv
  · simp only [validateEbit, apply_ite Prod.fst]
    split_ifs with h1
    · simp [h1]
    · simp [h1]
  · simp only [validateEbit, apply_ite Prod.fst]
    split_ifs with h1 h2 h3 h4
    · simp [h1]
    · exact iff_of_true rfl (Or.inr ⟨rv, rfl, h2, h3⟩)
    · refine iff_of_false (by simp) ?_
      rintro (h | ⟨rv2, hrv, -, hout⟩)
      · exact h1 h
      · rw [Option.some_inj] at hrv
        subst hrv
        exact h3 hout
    · refine iff_of_false (by simp) ?_
      rintro (h | ⟨rv2, hrv, -, hout⟩)
      · exact h1 h
      · rw [Option.some_inj] at hrv
        subst hrv
        exact h3 hout
    · refine iff_of_false (by simp) ?_
      rintro (h | ⟨rv2, hrv, hpos, -⟩)
      · exact h1 h
      · rw [Option.some_inj] at hrv
        subst hrv
        exact h2 hpos

/-- Witness for C8: EBIT 1 below net income 2 fails hard. -/
theorem validate_ebit_fails_iff_witness :
    (validateEbit 1 (some 2) none).1 = false :=
  (validate_ebit_fails_iff 1 2 none).mpr (Or.inl (by norm_num))

/-! ## Claim C6 (corrected): tag resolver absence -/

/-- Counterexample to C6 as stated: a fact set whose only Assets observation
carries a null value has no populated (non-null-valued) observation at all,
yet the resolver returns a resolution record (with a null value field)
rather than absence. -/
theorem tag_resolver_null_counterexample :
    (∀ p ∈ factsNullAssets, ∀ u ∈ p.2.units, ∀ o ∈ u.2, o.val = none) ∧
    getTagValue factsNullAssets ["Assets"] "10-K" =
      some ⟨none, "2024-12-31", "2025-02-01", "Assets"⟩ := by
  constructor
  · decide
  · rfl

/-- C6 as amended: the tag resolver returns absence exactly when no
candidate tag has any USD observation of the given form type, whatever the
observations' values; it never raises (it is a total function).  A candidate
whose qualifying observations are all null-valued is returned as a
resolution record carrying a null value (which the calculators coerce to
zero). -/
theorem getTagValue_eq_none_iff (gaap : GaapData) (tags : List String)
    (formType : String) :
    getTagValue gaap tags formType = none ↔
      ∀ tag ∈ tags, ∀ td, lookupTag gaap tag = some td →
        ∀ values, td.usd = some values →
          values.filter (fun v => v.form = formType) = [] := by
  induction tags with
  | nil => simp [getTagValue]
  | cons t rest ih =>
    simp only [getTagValue, List.forall_mem_cons]
    cases hlt : lookupTag gaap t with
    | none => simp [hlt, ih]
    | some td =>
      cases husd : td.usd with
      | none => simp [husd, ih]
      | some values =>
        cases hpick : pickMostRecent (values.filter (fun v => v.form = formType)) with
        | none =>
          have hfilt := pickMostRecent_eq_none.mp hpick
          simp only [husd, hpick]
          constructor
          · intro h
            refine ⟨?_, ih.mp h⟩
            intro td2 htd2 values2 hval2
            rw [Option.some_inj] at htd2
            subst htd2
            rw [husd, Option.some_inj] at hval2
            subst hval2
            exact hfilt
          · rintro ⟨-, hrest⟩
            exact ih.mpr hrest
        | some m =>
          simp only [husd, hpick]
          refine iff_of_false (by simp) ?_
          rintro ⟨ht, -⟩
          have hfilt := ht td rfl values husd
          rw [pickMostRecent_eq_none.mpr hfilt] at hpick
          exact Option.noConfusion hpick

/-- Witness for C6: a candidate tag present only with an annual observation
does not resolve for the quarterly form type. -/
theorem getTagValue_eq_none_iff_witness :
    getTagValue [("Assets", mkTag (some 5))] ["Assets"] "10-Q" = none := by
  apply (getTagValue_eq_none_iff [("Assets", mkTag (some 5))] ["Assets"] "10-Q").mpr
  intro tag htag td htd values hv
  rw [List.mem_singleton] at htag
  subst htag
  have h1 : lookupTag [("Assets", mkTag (some 5))] "Assets" = some (mkTag (some 5)) := rfl
  rw [h1, Option.some_inj] at htd
  subst htd
  have h2 : (mkTag (some 5)).usd = some [mkObs (some 5)] := rfl
  rw [h2, Option.some_inj] at hv
  subst hv
  decide

/-! ## Claim C10: null most-recent value reported as zero -/

/-- C10: when the highest-priority candidate resolves but carries a null
value, the calculators report success with value 0: calculate_assets returns
value 0 with the Direct Assets tag method, and calculate_total_debt adds 0
for a null-valued non-current long-term-debt component while still listing
it among the contributing components (shown here with no current-portion
candidates and resolved short-term borrowings, so the total equals the
short-term value alone). -/
theorem null_value_reported_as_zero (gaap : GaapData) (formType : String) :
    (∀ r, getTagValue gaap ASSETS_TAGS formType = some r → r.val = none →
      calculateAssets gaap formType =
        some ⟨0, "Direct Assets tag", [("source", r)]⟩) ∧
    (∀ r s, getTagValue gaap LT_DEBT_INCLUDING_CURRENT_TAGS formType = none →
      getTagValue gaap LT_DEBT_NONCURRENT_TAGS formType = some r → r.val = none →
      checkForDuplicateTags gaap LT_DEBT_CURRENT_TAGS formType = [] →
      calculateStBorrowings gaap formType = some s →
      ∃ res, calculateTotalDebt gaap formType = .ok (some res) ∧
        res.value = s.value ∧
        ("lt_debt_noncurrent", DebtComponent.resolved r) ∈ res.components) := by
  constructor
  · intro r hr hv
    simp [calculateAssets, hr, orZero, hv]
  · intro r s hinc hr hv hcur hst
    simp only [calculateTotalDebt, hinc]
    simp only [calculateTotalDebtStandard, hr, hcur, hst]
    simp [orZero, hv]

/-- Witness for C10: the null-Assets fact set yields assets value 0, and the
null-non-current-debt fact set yields total debt 50 (the short-term
borrowings) with the null component still listed. -/
theorem null_value_reported_as_zero_witness :
    calculateAssets factsNullAssets "10-K" =
      some ⟨0, "Direct Assets tag",
        [("source", ⟨none, "2024-12-31", "2025-02-01", "Assets"⟩)]⟩ ∧
    (∃ res, calculateTotalDebt factsNullDebt "10-K" = .ok (some res) ∧
      res.value = 50 ∧
      ("lt_debt_noncurrent",
        DebtComponent.resolved
          ⟨none, "2024-12-31", "2025-02-01", "LongTermDebtNoncurrent"⟩) ∈
        res.components) := by
  constructor
  · exact (null_value_reported_as_zero factsNullAssets "10-K").1
      ⟨none, "2024-12-31", "2025-02-01", "Assets"⟩ (by decide) rfl
  · obtain ⟨res, h1, h2, h3⟩ := (null_value_reported_as_zero factsNullDebt "10-K").2
      ⟨none, "2024-12-31", "2025-02-01", "LongTermDebtNoncurrent"⟩
      ⟨50, "Direct ShortTermBorrowings",
        [("source", ⟨some 50, "2024-12-31", "2025-02-01", "ShortTermBorrowings"⟩)]⟩
      (by decide) (by decide) rfl (by decide) (by decide)
    exact ⟨res, h1, h2, h3⟩

/-! ## Claim C5: including-current-maturities short-circuit -/

/-- C5: when an including-current-maturities long-term-debt tag resolves,
calculate_total_debt uses it alone for the long-term component: the method
is the fixed 2-component string (which never lists a separate
current-portion component), no current-portion component appears, the
components are exactly the including-current record plus at most the
short-term borrowings, and the total is their sum. -/
theorem including_current_skips_current_portion (gaap : GaapData)
    (formType : String) (inc : Resolved)
    (hinc : getTagValue gaap LT_DEBT_INCLUDING_CURRENT_TAGS formType = some inc) :
    ∃ res, calculateTotalDebt gaap formType = .ok (some res) ∧
      res.method = "2-component (LT including current + ST borrowings)" ∧
      (∀ x, ("lt_debt_current", x) ∉ res.components) ∧
      res.components =
        ("lt_debt_including_current", DebtComponent.resolved inc) ::
          (match calculateStBorrowings gaap formType with
           | some s => [("st_borrowings", DebtComponent.st s)]
           | none => []) ∧
      res.value = orZero inc.val +
        (match calculateStBorrowings gaap formType with
         | some s => s.value
         | none => 0) := by
  cases hst : calculateStBorrowings gaap formType with
  | some st =>
    simp only [calculateTotalDebt, hinc, hst]
    exact ⟨_, rfl, rfl, by simp, by simp, rfl⟩
  | none =>
    simp only [calculateTotalDebt, hinc, hst]
    exact ⟨_, rfl, rfl, by simp, by simp, by simp⟩

/-- Witness for C5 at the concrete fact set with an including-current tag of
500 next to current-portion candidates: the current portion is skipped. -/
theorem including_current_skips_current_portion_witness :
    ∃ res, calculateTotalDebt factsIncludingAndDuplicates "10-K" = .ok (some res) ∧
      res.method = "2-component (LT including current + ST borrowings)" ∧
      (∀ x, ("lt_debt_current", x) ∉ res.components) ∧
      res.value = 500 := by
  obtain ⟨res, h1, h2, h3, h4, h5⟩ :=
    including_current_skips_current_portion factsIncludingAndDuplicates "10-K"
      ⟨some 500, "2024-12-31", "2025-02-01", "LongTermDebtIncludingCurrentMaturities"⟩
      (by decide)
  refine ⟨res, h1, h2, h3, ?_⟩
  rw [h5]
  have hst : calculateStBorrowings factsIncludingAndDuplicates "10-K" = none := by
    decide
  rw [hst]
  simp [orZero]

/-! ## Claim C4 (corrected): duplicate current-portion tags -/

/-- Counterexample to C4 as stated: in this fact set two current-portion
candidate tags resolve with the identical value 100, yet (because an
including-current-maturities tag also resolves) calculate_total_debt does
not add that value at all and attaches no duplicates-detected warning: the
total is 500 and the only warning is the including-current note. -/
theorem duplicate_current_portion_counterexample :
    (checkForDuplicateTags factsIncludingAndDuplicates LT_DEBT_CURRENT_TAGS
        "10-K").map (fun m => m.val) = [some 100, some 100] ∧
    calculateTotalDebt factsIncludingAndDuplicates "10-K" =
      .ok (some ⟨500, "2-component (LT including current + ST borrowings)",
        [("lt_debt_including_current",
          DebtComponent.resolved
            ⟨some 500, "2024-12-31", "2025-02-01",
             "LongTermDebtIncludingCurrentMaturities"⟩)],
        some [.usingIncludingCurrent "LongTermDebtIncludingCurrentMaturities"]⟩) := by
  exact ⟨by decide, by decide⟩

/-- C4 as amended: provided no including-current-maturities tag resolves,
when two or more current-portion candidates resolve: with identical
non-null candidate values calculate_total_debt adds the first candidate's
value to the total exactly once and attaches a duplicates-detected warning
carrying it; with an identical null value the warning's numeric formatting
raises TypeError and no result is returned; with differing values it uses
the first candidate (counted once) and emits the high-visibility
different-values warning requiring manual review. -/
theorem duplicate_current_portion_amended (gaap : GaapData) (formType : String)
    (hinc : getTagValue gaap LT_DEBT_INCLUDING_CURRENT_TAGS formType = none)
    (m1 m2 : Resolved) (rest : List Resolved)
    (hm : checkForDuplicateTags gaap LT_DEBT_CURRENT_TAGS formType =
      m1 :: m2 :: rest) :
    ((m2 :: rest).all (fun m => m.val = m1.val) = true → m1.val = none →
      calculateTotalDebt gaap formType = .typeError) ∧
    (∀ v, m1.val = some v →
      (m2 :: rest).all (fun m => m.val = m1.val) = true →
      ∃ res, calculateTotalDebt gaap formType = .ok (some res) ∧
        ("lt_debt_current", DebtComponent.resolved m1) ∈ res.components ∧
        res.value =
          (match getTagValue gaap LT_DEBT_NONCURRENT_TAGS formType with
           | some r => orZero r.val
           | none => 0) + orZero m1.val +
          (match calculateStBorrowings gaap formType with
           | some s => s.value
           | none => 0) ∧
        ∃ ws, res.warnings = some ws ∧
          DebtWarning.duplicateTagsSameValue (rest.length + 2) v ∈ ws) ∧
    ((m2 :: rest).all (fun m => m.val = m1.val) = false →
      ∃ res, calculateTotalDebt gaap formType = .ok (some res) ∧
        ("lt_debt_current", DebtComponent.resolved m1) ∈ res.components ∧
        res.value =
          (match getTagValue gaap LT_DEBT_NONCURRENT_TAGS formType with
           | some r => orZero r.val
           | none => 0) + orZero m1.val +
          (match calculateStBorrowings gaap formType with
           | some s => s.value
           | none => 0) ∧
        ∃ ws, res.warnings = some ws ∧
          DebtWarning.duplicateTagsDifferentValues (rest.length + 2)
            ((m1 :: m2 :: rest).map (fun m => m.val)) ∈ ws) := by
  refine ⟨?_, ?_, ?_⟩
  · intro hall hnull
    rw [hnull] at hall
    simp only [calculateTotalDebt, hinc, calculateTotalDebtStandard, hm, hnull,
      hall]
    simp
  · intro v hv hall
    cases hnc : getTagValue gaap LT_DEBT_NONCURRENT_TAGS formType <;>
      cases hst : calculateStBorrowings gaap formType <;>
        simp only [calculateTotalDebt, hinc, calculateTotalDebtStandard, hm, hnc,
          hall, hv, hst] <;>
        simp_all
  · intro hall
    cases hnc : getTagValue gaap LT_DEBT_NONCURRENT_TAGS formType <;>
      cases hst : calculateStBorrowings gaap formType <;>
        simp only [calculateTotalDebt, hinc, calculateTotalDebtStandard, hm, hnc,
          hall, hst] <;>
        simp_all

/-- Witness for C4: with non-current debt 300 and two current-portion
candidates both 100, the total is 400, counted once, with the duplicates
warning; and with two current-portion candidates both null-valued, the
calculator raises (typeError). -/
theorem duplicate_current_portion_amended_witness :
    (∃ res, calculateTotalDebt factsDuplicateCurrent "10-K" = .ok (some res) ∧
      ("lt_debt_current",
        DebtComponent.resolved
          ⟨some 100, "2024-12-31", "2025-02-01", "LongTermDebtCurrent"⟩) ∈
        res.components ∧
      res.value = 400 ∧
      ∃ ws, res.warnings = some ws ∧
        DebtWarning.duplicateTagsSameValue 2 100 ∈ ws) ∧
    calculateTotalDebt factsNullDuplicateCurrent "10-K" = .typeError := by
  constructor
  · obtain ⟨res, h1, h2, h3, ws, h4, h5⟩ :=
      (duplicate_current_portion_amended factsDuplicateCurrent "10-K" (by decide)
        ⟨some 100, "2024-12-31", "2025-02-01", "LongTermDebtCurrent"⟩
        ⟨some 100, "2024-12-31", "2025-02-01",
         "LongTermDebtAndCapitalLeaseObligationsCurrent"⟩
        [] (by decide)).2.1 100 rfl (by decide)
    refine ⟨res, h1, h2, ?_, ws, h4, h5⟩
    rw [h3]
    have hnc : getTagValue factsDuplicateCurrent LT_DEBT_NONCURRENT_TAGS "10-K" =
        some ⟨some 300, "2024-12-31", "2025-02-01", "LongTermDebtNoncurrent"⟩ := by
      decide
    have hst : calculateStBorrowings factsDuplicateCurrent "10-K" = none := by
      decide
    rw [hnc, hst]
    simp [orZero]
    norm_num
  · exact (duplicate_current_portion_amended factsNullDuplicateCurrent "10-K"
      (by decide)
      ⟨none, "2024-12-31", "2025-02-01", "LongTermDebtCurrent"⟩
      ⟨none, "2024-12-31", "2025-02-01",
       "LongTermDebtAndCapitalLeaseObligationsCurrent"⟩
      [] (by decide)).1 (by decide) rfl

/-! ## Claim C7: tier 1 subtractive branch with validation warning -/

/-- C7: when the direct operating-income tag does not resolve but revenues
and costs-and-expenses both resolve with non-null values, tier 1 returns
EBIT = revenues minus costs with tier 1; and when a pre-tax-income
validation tag also resolves with a value differing from that EBIT by more
than the fixed 1,000,000 tolerance, a validation warning note is attached
while the value is still accepted. -/
theorem tier1_subtractive_validation_warning (gaap : GaapData)
    (formType : String)
    (hoi : getTagValue gaap TIER_1_OPERATING_INCOME_DIRECT formType = none)
    (revenues costs : Resolved) (rv cv : ℚ)
    (hr : getTagValue gaap TIER_1_REVENUES formType = some revenues)
    (hrv : revenues.val = some rv)
    (hc : getTagValue gaap TIER_1_COSTS_AND_EXPENSES formType = some costs)
    (hcv : costs.val = some cv) :
    ∃ res, calculateEbit gaap formType = some res ∧
      res.value = rv - cv ∧ res.tier = 1 ∧
      res.method = "Revenues - CostsAndExpenses" ∧
      (∀ p pv,
        getTagValue gaap TIER_1_PRETAX_INCOME_VALIDATION formType = some p →
        p.val = some pv → 1000000 < |rv - cv - pv| →
        res.validation = some (.warning |rv - cv - pv|)) := by
  have ht1 : tier1DirectOperatingIncome gaap formType =
      tier1Subtractive gaap formType := by
    simp [tier1DirectOperatingIncome, hoi]
  rw [calculateEbit, ht1]
  cases hp : getTagValue gaap TIER_1_PRETAX_INCOME_VALIDATION formType with
  | none =>
    simp only [tier1Subtractive, hr, hc, hrv, hcv, hp]
    refine ⟨_, rfl, rfl, rfl, rfl, ?_⟩
    intro p pv hpeq hpv hlt
    exact Option.noConfusion hpeq
  | some p0 =>
    cases hpv0 : p0.val with
    | none =>
      simp only [tier1Subtractive, hr, hc, hrv, hcv, hp, hpv0]
      refine ⟨_, rfl, rfl, rfl, rfl, ?_⟩
      intro p pv hpeq hpv hlt
      rw [Option.some_inj] at hpeq
      subst hpeq
      rw [hpv0] at hpv
      exact Option.noConfusion hpv
    | some pv0 =>
      by_cases hle : |rv - cv - pv0| ≤ 1000000
      · simp only [tier1Subtractive, hr, hc, hrv, hcv, hp, hpv0, if_pos hle]
        refine ⟨_, rfl, rfl, rfl, rfl, ?_⟩
        intro p pv hpeq hpv hlt
        rw [Option.some_inj] at hpeq
        subst hpeq
        rw [hpv0, Option.some_inj] at hpv
        subst hpv
        exact absurd hlt (not_lt.mpr hle)
      · simp only [tier1Subtractive, hr, hc, hrv, hcv, hp, hpv0, if_neg hle]
        refine ⟨_, rfl, rfl, rfl, rfl, ?_⟩
        intro p pv hpeq hpv hlt
        rw [Option.some_inj] at hpeq
        subst hpeq
        rw [hpv0, Option.some_inj] at hpv
        subst hpv
        rfl

/-- Witness for C7 at the end-to-end scenario B facts: revenues 10,000,000,
costs 2,000,000, pre-tax income 5,000,000 differing from the EBIT of
8,000,000 by 3,000,000: tier 1 with a validation warning. -/
theorem tier1_subtractive_validation_warning_witness :
    ∃ res, calculateEbit factsScenarioB "10-K" = some res ∧
      res.value = 8000000 ∧ res.tier = 1 ∧
      res.validation = some (.warning 3000000) := by
  obtain ⟨res, h1, h2, h3, h4, h5⟩ :=
    tier1_subtractive_validation_warning factsScenarioB "10-K" (by decide)
      ⟨some 10000000, "2024-12-31", "2025-02-01", "Revenues"⟩
      ⟨some 2000000, "2024-12-31", "2025-02-01", "CostsAndExpenses"⟩
      10000000 2000000 (by decide) rfl (by decide) rfl
  have h6 := h5
    ⟨some 5000000, "2024-12-31", "2025-02-01",
     "IncomeLossFromContinuingOperationsBeforeIncomeTaxesExtraordinaryItemsNoncontrollingInterest"⟩
    5000000 (by decide) rfl (by norm_num)
  refine ⟨res, h1, ?_, h3, ?_⟩
  · rw [h2]
    norm_num
  · rw [h6]
    norm_num

/-! ## Claim C1: EBIT waterfall -/

theorem tier1Subtractive_isSome_iff (gaap : GaapData) (formType : String) :
    (tier1Subtractive gaap formType).isSome = true ↔
      ∃ r rv c cv, getTagValue gaap TIER_1_REVENUES formType = some r ∧
        r.val = some rv ∧
        getTagValue gaap TIER_1_COSTS_AND_EXPENSES formType = some c ∧
        c.val = some cv := by
  cases h1 : getTagValue gaap TIER_1_REVENUES formType with
  | none => simp [tier1Subtractive, h1]
  | some r =>
    cases h2 : getTagValue gaap TIER_1_COSTS_AND_EXPENSES formType with
    | none => simp [tier1Subtractive, h1, h2]
    | some c =>
      cases h3 : r.val <;> cases h4 : c.val <;>
        simp [tier1Subtractive, h1, h2, h3, h4]

theorem tier1_isSome_iff (gaap : GaapData) (formType : String) :
    (tier1DirectOperatingIncome gaap formType).isSome = true ↔
      (∃ o v, getTagValue gaap TIER_1_OPERATING_INCOME_DIRECT formType = some o ∧
        o.val = some v) ∨
      (∃ r rv c cv, getTagValue gaap TIER_1_REVENUES formType = some r ∧
        r.val = some rv ∧
        getTagValue gaap TIER_1_COSTS_AND_EXPENSES formType = some c ∧
        c.val = some cv) := by
  cases hoi : getTagValue gaap TIER_1_OPERATING_INCOME_DIRECT formType with
  | none =>
    rw [show tier1DirectOperatingIncome gaap formType =
      tier1Subtractive gaap formType from by
        simp [tier1DirectOperatingIncome, hoi]]
    rw [tier1Subtractive_isSome_iff]
    simp
  | some o =>
    cases hv : o.val with
    | none =>
      rw [show tier1DirectOperatingIncome gaap formType =
        tier1Subtractive gaap formType from by
          simp [tier1DirectOperatingIncome, hoi, hv]]
      rw [tier1Subtractive_isSome_iff]
      simp [hv]
    | some v =>
      simp [tier1DirectOperatingIncome, hoi, hv]

theorem tier2_isSome_iff (gaap : GaapData) (formType : String) :
    (tier2BuildFromComponents gaap formType).isSome = true ↔
      ∃ r rv g gv o ov, getTagValue gaap TIER_2_REVENUES formType = some r ∧
        r.val = some rv ∧
        getTagValue gaap TIER_2_COGS formType = some g ∧ g.val = some gv ∧
        getTagValue gaap TIER_2_OPERATING_EXPENSES formType = some o ∧
        o.val = some ov := by
  cases h1 : getTagValue gaap TIER_2_REVENUES formType with
  | none => simp [tier2BuildFromComponents, h1]
  | some r =>
    cases h2 : getTagValue gaap TIER_2_COGS formType with
    | none => simp [tier2BuildFromComponents, h1, h2]
    | some g =>
      cases h3 : getTagValue gaap TIER_2_OPERATING_EXPENSES formType with
      | none => simp [tier2BuildFromComponents, h1, h2, h3]
      | some o =>
        cases h4 : r.val <;> cases h5 : g.val <;> cases h6 : o.val <;>
          simp [tier2BuildFromComponents, h1, h2, h3, h4, h5, h6]

theorem tier3_isSome_iff (gaap : GaapData) (formType : String) :
    (tier3WorkBackwards gaap formType).isSome = true ↔
      ∃ n nv x xv i iv, getTagValue gaap TIER_3_NET_INCOME formType = some n ∧
        n.val = some nv ∧
        getTagValue gaap TIER_3_INCOME_TAX formType = some x ∧ x.val = some xv ∧
        getTagValue gaap TIER_3_INTEREST_EXPENSE formType = some i ∧
        i.val = some iv := by
  cases h1 : getTagValue gaap TIER_3_NET_INCOME formType with
  | none => simp [tier3WorkBackwards, h1]
  | some n =>
    cases h2 : getTagValue gaap TIER_3_INCOME_TAX formType with
    | none => simp [tier3WorkBackwards, h1, h2]
    | some x =>
      cases h3 : getTagValue gaap TIER_3_INTEREST_EXPENSE formType with
      | none => simp [tier3WorkBackwards, h1, h2, h3]
      | some i =>
        cases h4 : n.val <;> cases h5 : x.val <;> cases h6 : i.val <;>
          simp [tier3WorkBackwards, h1, h2, h3, h4, h5, h6]

theorem tier4_isSome_iff (gaap : GaapData) (formType : String) :
    (tier4PretaxPlusInterest gaap formType).isSome = true ↔
      ∃ p pv i iv, getTagValue gaap TIER_4_PRETAX_INCOME formType = some p ∧
        p.val = some pv ∧
        getTagValue gaap TIER_4_INTEREST_EXPENSE formType = some i ∧
        i.val = some iv := by
  cases h1 : getTagValue gaap TIER_4_PRETAX_INCOME formType with
  | none => simp [tier4PretaxPlusInterest, h1]
  | some p =>
    cases h2 : getTagValue gaap TIER_4_INTEREST_EXPENSE formType with
    | none => simp [tier4PretaxPlusInterest, h1, h2]
    | some i =>
      cases h3 : p.val <;> cases h4 : i.val <;>
        simp [tier4PretaxPlusInterest, h1, h2, h3, h4]

/-- C1: calculate_ebit tries the four tiers in strict order and returns the
first tier's result with the tier field equal to that tier's number, and
absence when every tier fails; a tier succeeds exactly when all of its
required tags resolve with non-null values (tier 1: the direct
operating-income tag, or both revenues and costs-and-expenses); and in
particular when neither the operating-income tag nor revenues resolve but
net income, income tax and interest expense all resolve with values, the
result is their sum with tier 3. -/
theorem calculate_ebit_waterfall (gaap : GaapData) (formType : String) :
    (calculateEbit gaap formType = none ↔
      tier1DirectOperatingIncome gaap formType = none ∧
      tier2BuildFromComponents gaap formType = none ∧
      tier3WorkBackwards gaap formType = none ∧
      tier4PretaxPlusInterest gaap formType = none) ∧
    (∀ t, tier1DirectOperatingIncome gaap formType = some t →
      calculateEbit gaap formType = some (EbitResult.ofTier t 1)) ∧
    (tier1DirectOperatingIncome gaap formType = none →
      ∀ t, tier2BuildFromComponents gaap formType = some t →
        calculateEbit gaap formType = some (EbitResult.ofTier t 2)) ∧
    (tier1DirectOperatingIncome gaap formType = none →
      tier2BuildFromComponents gaap formType = none →
      ∀ t, tier3WorkBackwards gaap formType = some t →
        calculateEbit gaap formType = some (EbitResult.ofTier t 3)) ∧
    (tier1DirectOperatingIncome gaap formType = none →
      tier2BuildFromComponents gaap formType = none →
      tier3WorkBackwards gaap formType = none →
      ∀ t, tier4PretaxPlusInterest gaap formType = some t →
        calculateEbit gaap formType = some (EbitResult.ofTier t 4)) ∧
    (∀ res, calculateEbit gaap formType = some res → 1 ≤ res.tier ∧ res.tier ≤ 4) ∧
    ((tier1DirectOperatingIncome gaap formType).isSome = true ↔
      (∃ o v, getTagValue gaap TIER_1_OPERATING_INCOME_DIRECT formType = some o ∧
        o.val = some v) ∨
      (∃ r rv c cv, getTagValue gaap TIER_1_REVENUES formType = some r ∧
        r.val = some rv ∧
        getTagValue gaap TIER_1_COSTS_AND_EXPENSES formType = some c ∧
        c.val = some cv)) ∧
    ((tier2BuildFromComponents gaap formType).isSome = true ↔
      ∃ r rv g gv o ov, getTagValue gaap TIER_2_REVENUES formType = some r ∧
        r.val = some rv ∧
        getTagValue gaap TIER_2_COGS formType = some g ∧ g.val = some gv ∧
        getTagValue gaap TIER_2_OPERATING_EXPENSES formType = some o ∧
        o.val = some ov) ∧
    ((tier3WorkBackwards gaap formType).isSome = true ↔
      ∃ n nv x xv i iv, getTagValue gaap TIER_3_NET_INCOME formType = some n ∧
        n.val = some nv ∧
        getTagValue gaap TIER_3_INCOME_TAX formType = some x ∧ x.val = some xv ∧
        getTagValue gaap TIER_3_INTEREST_EXPENSE formType = some i ∧
        i.val = some iv) ∧
    ((tier4PretaxPlusInterest gaap formType).isSome = true ↔
      ∃ p pv i iv, getTagValue gaap TIER_4_PRETAX_INCOME formType = some p ∧
        p.val = some pv ∧
        getTagValue gaap TIER_4_INTEREST_EXPENSE formType = some i ∧
        i.val = some iv) ∧
    (getTagValue gaap TIER_1_OPERATING_INCOME_DIRECT formType = none →
      getTagValue gaap TIER_1_REVENUES formType = none →
      ∀ n x i nv xv iv,
        getTagValue gaap TIER_3_NET_INCOME formType = some n → n.val = some nv →
        getTagValue gaap TIER_3_INCOME_TAX formType = some x → x.val = some xv →
        getTagValue gaap TIER_3_INTEREST_EXPENSE formType = some i →
        i.val = some iv →
        ∃ res, calculateEbit gaap formType = some res ∧
          res.value = nv + xv + iv ∧ res.tier = 3 ∧
          res.method = "NetIncome + Tax + Interest") := by
  refine ⟨?_, ?_, ?_, ?_, ?_, ?_, tier1_isSome_iff gaap formType,
    tier2_isSome_iff gaap formType, tier3_isSome_iff gaap formType,
    tier4_isSome_iff gaap formType, ?_⟩
  · constructor
    · intro h
      cases h1 : tier1DirectOperatingIncome gaap formType with
      | some t => simp [calculateEbit, h1] at h
      | none =>
        cases h2 : tier2BuildFromComponents gaap formType with
        | some t => simp [calculateEbit, h1, h2] at h
        | none =>
          cases h3 : tier3WorkBackwards gaap formType with
          | some t => simp [calculateEbit, h1, h2, h3] at h
          | none =>
            cases h4 : tier4PretaxPlusInterest gaap formType with
            | some t => simp [calculateEbit, h1, h2, h3, h4] at h
            | none => exact ⟨rfl, rfl, rfl, rfl⟩
    · rintro ⟨h1, h2, h3, h4⟩
      simp [calculateEbit, h1, h2, h3, h4]
  · intro t h1
    simp [calculateEbit, h1]
  · intro h1 t h2
    simp [calculateEbit, h1, h2]
  · intro h1 h2 t h3
    simp [calculateEbit, h1, h2, h3]
  · intro h1 h2 h3 t h4
    simp [calculateEbit, h1, h2, h3, h4]
  · intro res h
    cases h1 : tier1DirectOperatingIncome gaap formType with
    | some t =>
      simp only [calculateEbit, h1, Option.some_inj] at h
      subst h
      exact ⟨by simp [EbitResult.ofTier], by simp [EbitResult.ofTier]⟩
    | none =>
      cases h2 : tier2BuildFromComponents gaap formType with
      | some t =>
        simp only [calculateEbit, h1, h2, Option.some_inj] at h
        subst h
        exact ⟨by simp [EbitResult.ofTier], by simp [EbitResult.ofTier]⟩
      | none =>
        cases h3 : tier3WorkBackwards gaap formType with
        | some t =>
          simp only [calculateEbit, h1, h2, h3, Option.some_inj] at h
          subst h
          exact ⟨by simp [EbitResult.ofTier], by simp [EbitResult.ofTier]⟩
        | none =>
          cases h4 : tier4PretaxPlusInterest gaap formType with
          | some t =>
            simp only [calculateEbit, h1, h2, h3, h4, Option.some_inj] at h
            subst h
            exact ⟨by simp [EbitResult.ofTier], by simp [EbitResult.ofTier]⟩
          | none => simp [calculateEbit, h1, h2, h3, h4] at h
  · intro hoi hrev n x i nv xv iv hn hnv hx hxv hi hiv
    have h1 : tier1DirectOperatingIncome gaap formType = none := by
      simp [tier1DirectOperatingIncome, hoi, tier1Subtractive, hrev]
    have h2 : tier2BuildFromComponents gaap formType = none := by
      simp [tier2BuildFromComponents, TIER_2_REVENUES, hrev]
    have h3 : tier3WorkBackwards gaap formType =
        some ⟨nv + xv + iv, "NetIncome + Tax + Interest",
          [("net_income", n), ("income_tax_expense_benefit", x),
           ("interest_expense", i)], none⟩ := by
      simp [tier3WorkBackwards, hn, hx, hi, hnv, hxv, hiv]
    exact ⟨EbitResult.ofTier
        ⟨nv + xv + iv, "NetIncome + Tax + Interest",
         [("net_income", n), ("income_tax_expense_benefit", x),
          ("interest_expense", i)], none⟩ 3,
      by simp [calculateEbit, h1, h2, h3], rfl, rfl, rfl⟩

/-- Witness for C1 at the end-to-end scenario C facts (net income 50, tax 8,
interest 2, nothing else): EBIT 60 via tier 3. -/
theorem calculate_ebit_waterfall_witness :
    ∃ res, calculateEbit factsScenarioC "10-K" = some res ∧
      res.value = 60 ∧ res.tier = 3 ∧
      res.method = "NetIncome + Tax + Interest" := by
  obtain ⟨res, h1, h2, h3, h4⟩ :=
    (calculate_ebit_waterfall factsScenarioC "10-K").2.2.2.2.2.2.2.2.2.2
      (by decide)
      (by decide)
      ⟨some 50, "2024-12-31", "2025-02-01", "NetIncomeLoss"⟩
      ⟨some 8, "2024-12-31", "2025-02-01", "IncomeTaxExpenseBenefit"⟩
      ⟨some 2, "2024-12-31", "2025-02-01", "InterestExpense"⟩
      50 8 2 (by decide) rfl (by decide) rfl (by decide) rfl
  refine ⟨res, h1, ?_, h3, h4⟩
  rw [h2]
  norm_num

/-! ## Claim C9 (corrected): determinism of parse_company_data -/

/-- Erasure of the wall-clock timestamp of one calculation log, for stating
what parse_company_data determines independently of the clock. -/
def scrubLogTimestamp (l : CalcLog) : CalcLog := { l with timestamp := "" }

/-- Erasure of the log timestamp of one period record. -/
def scrubPeriodTimestamps (p : PeriodMetrics) : PeriodMetrics :=
  { p with calculationLog := p.calculationLog.map scrubLogTimestamp }

/-- Erasure of every wall-clock timestamp of a parse result: the metadata's
parsed_at field and each period log's timestamp. -/
def scrubParseTimestamps (r : ParseResult) : ParseResult :=
  { metadata := { r.metadata with parsedAt := "" }
    annualPeriods := r.annualPeriods.map scrubPeriodTimestamps
    quarterlyPeriods := r.quarterlyPeriods.map scrubPeriodTimestamps }

/-- Timestamp erasure lifted over the call outcome: a raising run is left as
it is (a raise carries no timestamp). -/
def scrubPyParseTimestamps (r : PyResult ParseResult) : PyResult ParseResult :=
  match r with
  | .ok x => .ok (scrubParseTimestamps x)
  | .typeError => .typeError

/-- Counterexample to C9 as stated: on the same raw input, two invocations
of parse_company_data at different wall-clock instants produce different
outputs, because the metadata records the clock in parsed_at (and each log
records it in timestamp). -/
theorem parse_company_data_clock_counterexample :
    parseCompanyData "2024-01-01T00:00:00" edgarSample true ≠
      parseCompanyData "2024-01-02T00:00:00" edgarSample true := by
  intro h
  have h2 := congrArg (fun r =>
    match r with
    | .ok x => x.metadata.parsedAt
    | .typeError => "") h
  exact absurd h2 (by decide)

/-- C9 as amended: the outcome of parse_company_data (its result, or its
uncaught TypeError) is a deterministic pure function of the supplied fact
structure except for the recorded wall-clock timestamps: after erasing the
metadata's parsed_at and every calculation log's timestamp, two invocations
at any two clock instants agree exactly. -/
theorem parse_company_data_deterministic_up_to_timestamps
    (edgarData : EdgarData) (now1 now2 : String) (includeQuarterly : Bool) :
    scrubPyParseTimestamps (parseCompanyData now1 edgarData includeQuarterly) =
      scrubPyParseTimestamps (parseCompanyData now2 edgarData includeQuarterly) := by
  simp only [parseCompanyData]
  cases extractAllPeriods edgarData "10-K" with
  | typeError => rfl
  | ok annualPeriods =>
    cases (if includeQuarterly then extractAllPeriods edgarData "10-Q"
           else PyResult.ok []) with
    | typeError => rfl
    | ok quarterlyRaw =>
      simp only [scrubPyParseTimestamps, scrubParseTimestamps, List.map_map,
        List.length_map]
      congr 1

end EdgarParser
